import Mathlib

/-!
# Verification of the stock indicator / forecast / signal pipeline

Shallow embedding of the analysis pipeline of this repository
(`indicators.py`, `predictor.py`, `forecast_service.py`, `ai_module.py`)
over exact rational arithmetic.

Modelling conventions:
* a DataFrame is represented by its `Close` column, a `List ℚ`
  (the pipeline reads no other raw column);
* pandas cell values that may be the Python object `None` or the float
  `nan` are represented by `PyVal`;
* `nan`-producing float operations are modelled explicitly: `0/0 = nan`
  and `x/0 = +inf` for `x > 0` (so `100 - 100/(1+inf) = 100`);
* `sklearn.LinearRegression` and `math.sqrt` are deterministic numeric
  routines whose outputs are not rational-representable; they enter the
  embedding as explicit function parameters (`fit`, `sqrtQ`), and the
  least-squares property of a fitted model is the predicate `IsLSFit`;
* Python `round(x, 2)` is modelled as round-half-to-even at 2 decimals
  (`round2`);
* a `try/except Exception` block is modelled with `Except Unit`;
  the TypeError raised by comparing Python `None` with a number is the
  `.error` case of `PyVal.ltQ` / `PyVal.gtQ`.
-/

/-- A pandas cell that can hold the Python object `None`, the float `nan`,
or an actual number.  (`indicators.add_rsi` stores a column of `None`
when the series is too short, and `0/0` produces `nan`.) -/
inductive PyVal where
  | none
  | nan
  | num (q : ℚ)
deriving DecidableEq, Repr

/-- `v < c` as Python evaluates it: comparing `None` with a number raises
`TypeError` (the `.error` case); `nan < c` is `False`. -/
def PyVal.ltQ : PyVal → ℚ → Except Unit Bool
  | .none, _ => .error ()
  | .nan, _ => .ok false
  | .num q, c => .ok (decide (q < c))

/-- `v > c` as Python evaluates it (see `PyVal.ltQ`). -/
def PyVal.gtQ : PyVal → ℚ → Except Unit Bool
  | .none, _ => .error ()
  | .nan, _ => .ok false
  | .num q, c => .ok (decide (c < q))

/-- Round half to even at two decimals, the model of Python `round(x, 2)`. -/
def round2 (q : ℚ) : ℚ :=
  let n : ℤ := ⌊q * 100⌋
  let frac : ℚ := q * 100 - n
  let r : ℤ :=
    if frac < 1/2 then n
    else if 1/2 < frac then n + 1
    else if n % 2 = 0 then n else n + 1
  (r : ℚ) / 100

theorem round2_nonneg {q : ℚ} (hq : 0 ≤ q) : 0 ≤ round2 q := by
  unfold round2
  have hn : (0 : ℤ) ≤ ⌊q * 100⌋ := Int.floor_nonneg.mpr (by positivity)
  dsimp only
  have h : ∀ r : ℤ, 0 ≤ r → 0 ≤ (r : ℚ) / 100 := fun r hr =>
    div_nonneg (by exact_mod_cast hr) (by norm_num)
  split
  · exact h _ hn
  · split
    · exact h _ (by omega)
    · split
      · exact h _ hn
      · exact h _ (by omega)

/-- `indicators.add_moving_averages`: pandas
`Close.rolling(window=w, min_periods=1).mean()`.  Entry `i` is the mean of
the trailing window of the last `min (i+1) w` closes ending at `i`. -/
def rollingMean (w : ℕ) (xs : List ℚ) : List ℚ :=
  (List.range xs.length).map (fun i =>
    let win := (xs.take (i + 1)).drop (i + 1 - w)
    win.sum / (win.length : ℚ))

/-- One step of pandas `ewm(span, adjust=False).mean()`:
`y ← (1-α)·y + α·x`. -/
def ewmStep (α : ℚ) (prev x : ℚ) : ℚ := (1 - α) * prev + α * x

/-- pandas `ewm(span=period, adjust=False).mean()` with `α = 2/(span+1)`:
`y₀ = x₀`, `yᵢ = (1-α)·yᵢ₋₁ + α·xᵢ`. -/
def ewmList (span : ℕ) (xs : List ℚ) : List ℚ :=
  match xs with
  | [] => []
  | x :: rest => rest.scanl (ewmStep (2 / (span + 1 : ℚ))) x

/-- The gain series of `add_rsi`: `delta.where(delta > 0, 0)` where
`delta = Close.diff()`.  The leading `diff` cell is `NaN`, which `where`
replaces by `0`. -/
def gainsOf (closes : List ℚ) : List ℚ :=
  match closes with
  | [] => []
  | _ :: _ => 0 :: List.zipWith (fun a b => max (b - a) 0) closes closes.tail

/-- The loss series of `add_rsi`: `-delta.where(delta < 0, 0)`. -/
def lossesOf (closes : List ℚ) : List ℚ :=
  match closes with
  | [] => []
  | _ :: _ => 0 :: List.zipWith (fun a b => max (a - b) 0) closes closes.tail

/-- `RSI = 100 - 100/(1 + avg_gain/avg_loss)` with float semantics:
`avg_loss > 0` gives the ordinary formula, `avg_loss = 0 < avg_gain`
gives `RS = +inf` hence `RSI = 100`, and `0/0` gives `nan` (`none`). -/
def rsiCombine (g l : ℚ) : Option ℚ :=
  if 0 < l then some (100 - 100 / (1 + g / l))
  else if 0 < g then some 100
  else none

/-- The RSI series of `add_rsi` / `calculate_rsi` (before the short-data
gate): pointwise combination of the EWM gain and loss averages. -/
def rsiSeries (period : ℕ) (closes : List ℚ) : List (Option ℚ) :=
  List.zipWith rsiCombine (ewmList period (gainsOf closes))
    (ewmList period (lossesOf closes))

/-- The `RSI{period}` column written by `add_rsi`: for a series shorter
than `period + 1` the whole column is the Python object `None`; otherwise
it is the computed series (with `nan` where the float formula is `0/0`). -/
def rsiColumn (period : ℕ) (closes : List ℚ) : List PyVal :=
  if closes.length < period + 1 then List.replicate closes.length PyVal.none
  else (rsiSeries period closes).map (fun v =>
    match v with
    | some q => PyVal.num q
    | none => PyVal.nan)

/-- The short-data warning printed by `add_rsi` when
`len(df) < period + 1`. -/
def rsiShortWarning (period : ℕ) (closes : List ℚ) : Bool :=
  closes.length < period + 1

/-- A DataFrame after `add_indicators`: the `Close`, `SMA7`, `SMA30` and
`RSI14` columns. -/
structure IndicatorFrame where
  closes : List ℚ
  sma7 : List ℚ
  sma30 : List ℚ
  rsi : List PyVal
deriving DecidableEq, Repr

/-- `add_moving_averages` followed by `add_rsi` with the default
parameters (short 7, long 30, period 14), as `add_indicators` composes
them. -/
def mkFrame (closes : List ℚ) : IndicatorFrame :=
  { closes := closes
    sma7 := rollingMean 7 closes
    sma30 := rollingMean 30 closes
    rsi := rsiColumn 14 closes }

/-- `indicators.add_indicators`: raises `ValueError` on an empty frame,
otherwise adds the three indicator columns. -/
def addIndicators (closes : List ℚ) : Except String IndicatorFrame :=
  if closes.isEmpty then .error "DataFrame rong, khong the tinh chi bao"
  else .ok (mkFrame closes)

/-- The latest-indicator record returned by `get_latest_indicators`:
each field is `Option`-absent when the source omits the key.  The RSI
field stores a `PyVal` because a `nan` latest value *is* included (only
the Python object `None` is filtered out by `is not None`). -/
structure LatestIndicators where
  sma7 : Option ℚ
  sma30 : Option ℚ
  rsi : Option PyVal
deriving DecidableEq, Repr

/-- `round(x, 2)` applied to a cell value (`round` of `nan` is `nan`). -/
def roundPyVal : PyVal → PyVal
  | .none => .none
  | .nan => .nan
  | .num q => .num (round2 q)

/-- `indicators.get_latest_indicators`: reads the last row; the `RSI14`
key is included iff the cell is not the Python object `None`. -/
def getLatestIndicators (f : IndicatorFrame) : LatestIndicators :=
  if f.closes.isEmpty then ⟨none, none, none⟩
  else
    { sma7 := (f.sma7.getLast?).map round2
      sma30 := (f.sma30.getLast?).map round2
      rsi :=
        match f.rsi.getLast? with
        | some PyVal.none => none
        | some v => some (roundPyVal v)
        | none => none }

inductive Trend where
  | uptrend
  | downtrend
  | sideways
deriving DecidableEq, Repr

inductive Signal where
  | buy
  | sell
  | hold
deriving DecidableEq, Repr

/-- The record returned by `predictor.forecast_price_regression`. -/
structure Prediction where
  trend : Trend
  horizonDays : ℕ
  forecastNextDays : List ℚ
  signal : Signal
  reason : String
deriving DecidableEq, Repr

/-- A feature row of `_prepare_regression_data`: time index, `SMA7`,
`SMA30`, `RSI14` (all four columns are present after `add_indicators`). -/
structure FeatRow where
  idx : ℚ
  s7 : ℚ
  s30 : ℚ
  r : ℚ
deriving DecidableEq, Repr

/-- A fitted `sklearn.LinearRegression`: an intercept plus one
coefficient per feature. -/
structure LinModel where
  intercept : ℚ
  wIdx : ℚ
  wS7 : ℚ
  wS30 : ℚ
  wRsi : ℚ
deriving DecidableEq, Repr

/-- `model.predict` on one feature row. -/
def LinModel.predictRow (m : LinModel) (x : FeatRow) : ℚ :=
  m.intercept + m.wIdx * x.idx + m.wS7 * x.s7 + m.wS30 * x.s30 + m.wRsi * x.r

/-- The `pd.isna` substitution used for the RSI feature: `None`/`nan`
become the neutral `50.0`. -/
def rsiFeat : PyVal → ℚ
  | .none => 50
  | .nan => 50
  | .num q => q

/-- `_prepare_regression_data`, feature matrix: row `i` (for
`i = 1 .. len-1`) is `[i, SMA7[i-1], SMA30[i-1], RSI14[i-1]]` with the
`nan → 50` substitution for RSI. -/
def prepareX (f : IndicatorFrame) : List FeatRow :=
  (List.range (f.closes.length - 1)).map (fun k =>
    let i : ℕ := k + 1
    { idx := (i : ℚ)
      s7 := f.sma7.getD (i - 1) 0
      s30 := f.sma30.getD (i - 1) 0
      r := rsiFeat (f.rsi.getD (i - 1) PyVal.nan) })

/-- `_prepare_regression_data`, target vector: `Close[i]` for
`i = 1 .. len-1`. -/
def prepareY (f : IndicatorFrame) : List ℚ :=
  (List.range (f.closes.length - 1)).map (fun k => f.closes.getD (k + 1) 0)

/-- The squared-error loss of a candidate linear model on the training
data (the objective `sklearn.LinearRegression` minimises). -/
def lossFn (X : List FeatRow) (y : List ℚ) (m : LinModel) : ℚ :=
  ((List.zipWith (fun x t => m.predictRow x - t) X y).map (fun r => r ^ 2)).sum

/-- `m` is a least-squares fit of the training data: no candidate model
has strictly smaller squared error. -/
def IsLSFit (X : List FeatRow) (y : List ℚ) (m : LinModel) : Prop :=
  ∀ m', lossFn X y m ≤ lossFn X y m'

/-- `_generate_forecast`: extrapolate the fitted model over
`day = 1 .. horizon` with feature `[len + day - 1, SMA7[-1], SMA30[-1],
RSI14[-1]]`, clamping each prediction with `max(·, 0)`. -/
def generateForecast (m : LinModel) (f : IndicatorFrame) (horizon : ℕ) : List ℚ :=
  (List.range horizon).map (fun d =>
    let row : FeatRow :=
      { idx := ((f.closes.length + d : ℕ) : ℚ)
        s7 := f.sma7.getLast?.getD 0
        s30 := f.sma30.getLast?.getD 0
        r := rsiFeat (f.rsi.getLast?.getD PyVal.nan) }
    max (m.predictRow row) 0)

/-- `utils.is_sideways_trend`: relative change within the threshold. -/
def isSidewaysTrend (currentPrice forecastPrice threshold : ℚ) : Bool :=
  |forecastPrice - currentPrice| / currentPrice ≤ threshold

/-- `_determine_trend` with the 2% sideways threshold. -/
def determineTrend (currentPrice forecastPrice : ℚ) : Trend :=
  if isSidewaysTrend currentPrice forecastPrice (1/50) then .sideways
  else if currentPrice < forecastPrice then .uptrend
  else .downtrend

/-- `df['RSI14'].iloc[-1] if 'RSI14' in df.columns else 50` (the column
is always present after `add_indicators`; the default is kept for the
degenerate empty frame). -/
def lastRsi (f : IndicatorFrame) : PyVal :=
  f.rsi.getLast?.getD (PyVal.num 50)

/-- `df['SMA7'].iloc[-1]` with the source's `Close`-based default. -/
def lastSma7 (f : IndicatorFrame) : ℚ :=
  f.sma7.getLast?.getD (f.closes.getLast?.getD 0)

/-- `df['SMA30'].iloc[-1]` with the source's `Close`-based default. -/
def lastSma30 (f : IndicatorFrame) : ℚ :=
  f.sma30.getLast?.getD (f.closes.getLast?.getD 0)

/-- `_generate_trading_signal`.  Comparing a Python `None` RSI cell with
a number raises `TypeError` (the `Except.error` case); `nan` compares
`False`.  Note the strict `latest_sma7 > latest_sma30` on the uptrend
branch and strict `<` on the downtrend branch. -/
def generateTradingSignal (f : IndicatorFrame) (trend : Trend) :
    Except Unit (Signal × String) :=
  let rsi := lastRsi f
  let s7 := lastSma7 f
  let s30 := lastSma30 f
  match trend with
  | .uptrend =>
      match rsi.ltQ 70 with
      | .error e => .error e
      | .ok b =>
        if b then
          if s30 < s7 then .ok (.buy, "Xu huong tang, RSI chua qua mua, SMA7 > SMA30")
          else .ok (.hold, "Xu huong tang nhung can cho SMA7 vuot SMA30")
        else .ok (.hold, "Xu huong tang nhung RSI da qua mua")
  | .downtrend =>
      match rsi.gtQ 30 with
      | .error e => .error e
      | .ok b =>
        if b then
          if s7 < s30 then .ok (.sell, "Xu huong giam, RSI chua qua ban, SMA7 < SMA30")
          else .ok (.hold, "Xu huong giam nhung can cho SMA7 xuong duoi SMA30")
        else .ok (.hold, "Xu huong giam nhung RSI da qua ban, co the phuc hoi")
  | .sideways =>
      match rsi.ltQ 30 with
      | .error e => .error e
      | .ok b =>
        if b then .ok (.buy, "Thi truong sideways, RSI qua ban, co hoi mua")
        else
          match rsi.gtQ 70 with
          | .error e => .error e
          | .ok b2 =>
            if b2 then .ok (.sell, "Thi truong sideways, RSI qua mua, nen ban")
            else .ok (.hold, "Thi truong sideways, RSI trung tinh, cho tin hieu ro rang")

/-- `_get_default_prediction`: price drifts up by `0.1%` per day from the
last close (or from `100.0` when there is no data at all). -/
def getDefaultPrediction (horizon : ℕ) (reason : String) (closes : List ℚ) :
    Prediction :=
  let current := closes.getLast?.getD 100
  { trend := .sideways
    horizonDays := horizon
    forecastNextDays :=
      (List.range horizon).map (fun i : ℕ => round2 (current * (1 + (1/1000) * ((i : ℚ) + 1))))
    signal := .hold
    reason := reason }

/-- `_get_simple_prediction`: linear extrapolation of the average daily
relative change over the trailing five closes. -/
def getSimplePrediction (closes : List ℚ) (horizon : ℕ) (reason : String) :
    Prediction :=
  if closes.isEmpty then getDefaultPrediction horizon reason closes
  else
    let current := closes.getLast?.getD 0
    let recent := closes.drop (closes.length - 5)
    let dailyChange : ℚ :=
      if 2 ≤ recent.length then
        ((recent.getLast?.getD 0 - recent.headI) / recent.headI) / (recent.length : ℚ)
      else 1/1000
    let forecasts :=
      (List.range horizon).map (fun i : ℕ => round2 (current * (1 + dailyChange * ((i : ℚ) + 1))))
    if 1/500 < dailyChange then
      { trend := .uptrend, horizonDays := horizon, forecastNextDays := forecasts,
        signal := .buy,
        reason := "Xu huong tang dua tren du lieu gan day. " ++ reason }
    else if dailyChange < -(1/500) then
      { trend := .downtrend, horizonDays := horizon, forecastNextDays := forecasts,
        signal := .sell,
        reason := "Xu huong giam dua tren du lieu gan day. " ++ reason }
    else
      { trend := .sideways, horizonDays := horizon, forecastNextDays := forecasts,
        signal := .hold,
        reason := "Xu huong sideways, bien dong nho. " ++ reason }

/-- The `try` block of `forecast_price_regression`: data preparation,
fit (the `fit` parameter stands for `LinearRegression().fit`, which may
raise), forecast generation, trend and signal.  `forecast_prices[-1]`
on an empty forecast (horizon 0) raises `IndexError`, and signal
generation may raise `TypeError` on a `None` RSI cell. -/
def tryBody (fit : List FeatRow → List ℚ → Except Unit LinModel)
    (f : IndicatorFrame) (horizon : ℕ) : Except Unit Prediction :=
  if (prepareX f).length < 5 then
    .ok (getSimplePrediction f.closes horizon "Du lieu qua it de huan luyen mo hinh")
  else
    match fit (prepareX f) (prepareY f) with
    | .error e => .error e
    | .ok m =>
      let fc := generateForecast m f horizon
      match fc.getLast? with
      | Option.none => .error ()
      | some lastForecast =>
        let trend := determineTrend (f.closes.getLast?.getD 0) lastForecast
        match generateTradingSignal f trend with
        | .error e => .error e
        | .ok sr =>
          .ok { trend := trend
                horizonDays := horizon
                forecastNextDays := fc.map round2
                signal := sr.1
                reason := sr.2 }

/-- `forecast_price_regression`: short data goes to the default
prediction; any exception inside the `try` block degrades to the simple
prediction (the source formats the exception text into the reason; the
model uses a fixed marker string). -/
def forecastPriceRegression (fit : List FeatRow → List ℚ → Except Unit LinModel)
    (f : IndicatorFrame) (horizon : ℕ) : Prediction :=
  if f.closes.length < 10 then
    getDefaultPrediction horizon "Du lieu khong du de du doan" f.closes
  else
    match tryBody fit f horizon with
    | .ok p => p
    | .error _ => getSimplePrediction f.closes horizon "Loi du doan"

/-- Arithmetic mean (used in the sample standard deviation). -/
def listMean (xs : List ℚ) : ℚ := xs.sum / (xs.length : ℚ)

/-- Sample variance with `ddof = 1`, the square of pandas `Series.std()`. -/
def sampleVar (xs : List ℚ) : ℚ :=
  ((xs.map (fun x => (x - listMean xs) ^ 2)).sum) / ((xs.length : ℚ) - 1)

/-- `close.pct_change().abs().dropna()`: absolute daily relative
changes. -/
def absReturns (closes : List ℚ) : List ℚ :=
  List.zipWith (fun a b => |(b - a) / a|) closes closes.tail

/-- The volatility estimate of `_compute_bounds_from_volatility`
(`sqrtQ` stands for the float square root inside `Series.std()`):
fewer than 2 closes gives the 2% fallback; a single return observation
makes `ret.std()` a `nan`, which the `np.isnan` guard also turns into
2%; a zero standard deviation falls back to 2% as well. -/
def computeSigma (sqrtQ : ℚ → ℚ) (closes : List ℚ) : ℚ :=
  if closes.length < 2 then 1/50
  else
    let ret := absReturns closes
    let window := ret.drop (ret.length - 20)
    if 2 ≤ window.length then
      let s := sqrtQ (sampleVar window)
      if s = 0 then 1/50 else s
    else 1/50

/-- `_compute_bounds_from_volatility` with the default
`lookback = 20, k_sigma = 1.0`: per-day `[pred·(1-σ), pred·(1+σ)]`,
the lower bound floored at zero, both rounded to cents. -/
def computeBounds (sqrtQ : ℚ → ℚ) (preds : List ℚ) (closes : List ℚ) :
    List (ℚ × ℚ) :=
  let sigma := computeSigma sqrtQ closes
  preds.map (fun p => (round2 (max 0 (p * (1 - sigma))), round2 (p * (1 + sigma))))

/-- `forecast_service._derive_trend_and_signal` (the chronos-path
derivation): note the inclusive `sma7 >= sma30` / `sma7 <= sma30`
comparisons, and the `None`/`nan → 50` RSI default. -/
def deriveTrendAndSignal (currentPrice forecastPrice : ℚ) (rsi : PyVal)
    (sma7 sma30 : ℚ) : Trend × Signal × String :=
  let trend : Trend :=
    if isSidewaysTrend currentPrice forecastPrice (1/50) then .sideways
    else if currentPrice < forecastPrice then .uptrend
    else .downtrend
  let r : ℚ := rsiFeat rsi
  match trend with
  | .uptrend =>
      if r < 70 ∧ sma30 ≤ sma7 then
        (trend, .buy, "Xu huong tang, RSI chua qua mua, SMA7 >= SMA30")
      else (trend, .hold, "Xu huong tang nhung dieu kien chi bao chua dong thuan")
  | .downtrend =>
      if 30 < r ∧ sma7 ≤ sma30 then
        (trend, .sell, "Xu huong giam, RSI chua qua ban, SMA7 <= SMA30")
      else (trend, .hold, "Xu huong giam nhung dieu kien chi bao chua dong thuan")
  | .sideways =>
      if r < 30 then (trend, .buy, "Sideways, RSI qua ban")
      else if 70 < r then (trend, .sell, "Sideways, RSI qua mua")
      else (trend, .hold, "Sideways, RSI trung tinh")

/-- The result record of `forecast_service.get_forecast` (the fields the
claims are about; `generated_at` carries the wall-clock timestamp). -/
structure ForecastResult where
  symbol : String
  latestPrice : ℚ
  indicators : LatestIndicators
  trend : Trend
  forecastHorizonDays : ℕ
  forecastNextDays : List ℚ
  forecastBounds : List (ℚ × ℚ)
  signal : Signal
  reason : String
  generatedAt : String
deriving DecidableEq, Repr

/-- `forecast_service.get_forecast` on the `"linear"` model path (the
chronos path is unavailable without `transformers` and falls back to
this one).  There is no validation of `horizon` anywhere: the function
loads the data, computes indicators and forecasts for any horizon.
`now` stands for `get_current_datetime_iso()`. -/
def getForecast (fit : List FeatRow → List ℚ → Except Unit LinModel)
    (sqrtQ : ℚ → ℚ) (symbol : String) (closes : List ℚ) (horizon : ℕ)
    (now : String) : Except String ForecastResult :=
  match addIndicators closes with
  | .error e => .error e
  | .ok f =>
    let linear := forecastPriceRegression fit f horizon
    .ok { symbol := symbol
          latestPrice := round2 (f.closes.getLast?.getD 0)
          indicators := getLatestIndicators f
          trend := linear.trend
          forecastHorizonDays := horizon
          forecastNextDays := linear.forecastNextDays.map round2
          forecastBounds := computeBounds sqrtQ linear.forecastNextDays closes
          signal := linear.signal
          reason := linear.reason
          generatedAt := now }

/-- `30 <= rsi <= 70` as evaluated on the `.get('RSI14', 50)` value of
the confidence score (`nan` fails the chained comparison). -/
def rsiNeutralPoint : PyVal → Bool
  | .num q => decide (30 ≤ q ∧ q ≤ 70)
  | _ => false

/-- `ai_module.get_ai_confidence_score`: base `0.5`, plus `0.1` when RSI
is in `[30, 70]` (a `nan` RSI fails the comparison; an absent key
defaults to `50`), plus `0.2` when the SMA ordering is consistent with
the trend, plus `0.1` for a non-HOLD signal, plus `0.1` for a
non-Sideways trend, clamped into `[0, 1]`. -/
def getAiConfidenceScore (ind : LatestIndicators) (trend : Trend)
    (signal : Signal) : ℚ :=
  let rsi : PyVal := ind.rsi.getD (PyVal.num 50)
  let sma7 : ℚ := ind.sma7.getD 0
  let sma30 : ℚ := ind.sma30.getD 0
  let rsiPoint : Bool := rsiNeutralPoint rsi
  let score : ℚ := 1/2
    + (if rsiPoint then 1/10 else 0)
    + (if (sma30 < sma7 ∧ trend = .uptrend) ∨ (sma7 < sma30 ∧ trend = .downtrend)
        then 1/5 else 0)
    + (if signal = .buy ∨ signal = .sell then 1/10 else 0)
    + (if trend = .uptrend ∨ trend = .downtrend then 1/10 else 0)
  min 1 (max 0 score)

/-- `ai_module.get_ai_advice`: the base phrasing and the risk warning
are each drawn by `random.choice` from three fixed templates; the two
draws are modelled by the indices `pick1`, `pick2` (mod 3).  The
indicator-dependent clauses are deterministic in the result record. -/
def getAiAdvice (r : ForecastResult) (pick1 pick2 : ℕ) : String :=
  let base :=
    match r.signal with
    | .buy => ["AI nhan dinh co tiem nang tang gia ngan han.",
               "Phan tich ky thuat cho thay xu huong tich cuc.",
               "Tin hieu mua xuat hien voi cac chi bao ho tro."].getD (pick1 % 3) ""
    | .sell => ["AI khuyen nghi than trong trong ngan han.",
                "Phan tich cho thay co the dieu chinh giam.",
                "Tin hieu ban xuat hien, nen xem xet chot loi."].getD (pick1 % 3) ""
    | .hold => ["AI khuyen nghi giu nguyen vi the hien tai.",
                "Phan tich cho thay giai doan cho doi.",
                "Tin hieu chua ro rang, nen quan sat them."].getD (pick1 % 3) ""
  let warning :=
    ["Luu y: Dau tu co rui ro, can quan ly von hop ly.",
     "Khuyen nghi: Chi dau tu so tien co the chap nhan mat.",
     "Canh bao: Thi truong bien dong, can theo doi sat sao."].getD (pick2 % 3) ""
  base ++ " " ++ warning

/-- One full analysis as the app performs it: forecast record plus the
AI advice (randomised wording) and the confidence score. -/
structure AnalysisRecord where
  forecast : ForecastResult
  aiAdvice : String
  confidence : ℚ
deriving DecidableEq, Repr

/-- The analysis call chain of `app._perform_analysis`: service forecast,
then advice and confidence.  `now` is the wall-clock timestamp and
`pick1`, `pick2` the random template draws. -/
def analyze (fit : List FeatRow → List ℚ → Except Unit LinModel)
    (sqrtQ : ℚ → ℚ) (symbol : String) (closes : List ℚ) (horizon : ℕ)
    (now : String) (pick1 pick2 : ℕ) : Except String AnalysisRecord :=
  match getForecast fit sqrtQ symbol closes horizon now with
  | .error e => .error e
  | .ok r =>
    .ok { forecast := r
          aiAdvice := getAiAdvice r pick1 pick2
          confidence := getAiConfidenceScore r.indicators r.trend r.signal }

/-- The four result fields the idempotence property is about. -/
def coreFields (e : Except String AnalysisRecord) :
    Except String (Trend × Signal × List ℚ × List (ℚ × ℚ)) :=
  e.map (fun a => (a.forecast.trend, a.forecast.signal,
    a.forecast.forecastNextDays, a.forecast.forecastBounds))

/-- A 40-day flat price series at `100.0` (spec Scenario A). -/
def flat40 : List ℚ := List.replicate 40 100

/-- A 10-close series whose trailing five closes fall steeply
(`100 → 1`), driving the simple fallback's extrapolation negative. -/
def steepDrop10 : List ℚ := [100, 100, 100, 100, 100, 100, 100, 100, 100, 1]

/-- A 15-close series whose trailing 7-mean equals its trailing
15/30-mean (both `4`), with enough movement for a numeric RSI. -/
def smaTie15 : List ℚ := [4, 4, 4, 4, 4, 4, 4, 4, 1, 7, 1, 7, 1, 7, 4]

/-- A strictly increasing 15-close series. -/
def upClose15 : List ℚ :=
  [1, 2, 3, 4, 5, 6, 7, 8, 9, 10, 11, 12, 13, 14, 15]

-- ## General helper lemmas

theorem sumOfSquares_nonneg (l : List ℚ) : 0 ≤ (l.map (fun r => r ^ 2)).sum := by
  induction l with
  | nil => simp
  | cons a t ih => simp only [List.map_cons, List.sum_cons]; positivity

theorem sumOfSquares_eq_zero {l : List ℚ}
    (h : (l.map (fun r => r ^ 2)).sum = 0) : ∀ r ∈ l, r = 0 := by
  induction l with
  | nil => simp
  | cons a t ih =>
    simp only [List.map_cons, List.sum_cons] at h
    have ha : (0:ℚ) ≤ a ^ 2 := by positivity
    have ht : 0 ≤ (t.map (fun r => r ^ 2)).sum := sumOfSquares_nonneg t
    have ha0 : a ^ 2 = 0 := by linarith
    have ht0 : (t.map (fun r => r ^ 2)).sum = 0 := by linarith
    intro r hr
    rcases List.mem_cons.mp hr with rfl | hmem
    · exact (pow_eq_zero_iff (by norm_num)).mp ha0
    · exact ih ht0 r hmem

theorem lossFn_nonneg (X : List FeatRow) (y : List ℚ) (m : LinModel) :
    0 ≤ lossFn X y m :=
  sumOfSquares_nonneg _

theorem scanl_nonneg_of_step {f : ℚ → ℚ → ℚ}
    (hf : ∀ a x, 0 ≤ a → 0 ≤ x → 0 ≤ f a x) :
    ∀ (l : List ℚ) (a : ℚ), 0 ≤ a → (∀ x ∈ l, 0 ≤ x) →
      ∀ y ∈ l.scanl f a, 0 ≤ y := by
  intro l
  induction l with
  | nil => intro a ha _ y hy; simp only [List.scanl] at hy
           rcases List.mem_singleton.mp hy with rfl; exact ha
  | cons b t ih =>
    intro a ha hall y hy
    simp only [List.scanl] at hy
    rcases List.mem_cons.mp hy with rfl | hy'
    · exact ha
    · exact ih (f a b) (hf a b ha (hall b (by simp))) 
        (fun x hx => hall x (by simp [hx])) y hy'

theorem ewmStep_nonneg {al : ℚ} (h0 : 0 ≤ al) (h1 : al ≤ 1) :
    ∀ a x : ℚ, 0 ≤ a → 0 ≤ x → 0 ≤ ewmStep al a x := by
  intro a x ha hx
  unfold ewmStep
  have : 0 ≤ (1 - al) * a := mul_nonneg (by linarith) ha
  have : 0 ≤ al * x := mul_nonneg h0 hx
  linarith

theorem ewmList_nonneg {span : ℕ} (hs : 1 ≤ span) (xs : List ℚ)
    (hxs : ∀ x ∈ xs, 0 ≤ x) : ∀ y ∈ ewmList span xs, 0 ≤ y := by
  have h0 : 0 ≤ (2 : ℚ) / (span + 1 : ℚ) := by positivity
  have h1 : (2 : ℚ) / (span + 1 : ℚ) ≤ 1 := by
    rw [div_le_one (by positivity)]
    have : (1 : ℚ) ≤ (span : ℚ) := by exact_mod_cast hs
    linarith
  cases xs with
  | nil => simp [ewmList]
  | cons x rest =>
    intro y hy
    exact scanl_nonneg_of_step (ewmStep_nonneg h0 h1) rest x
      (hxs x (by simp)) (fun z hz => hxs z (by simp [hz])) y hy

theorem ewmList_length (span : ℕ) (xs : List ℚ) :
    (ewmList span xs).length = xs.length := by
  cases xs with
  | nil => rfl
  | cons x rest => simp [ewmList, List.length_scanl]

theorem gainsOf_length (closes : List ℚ) : (gainsOf closes).length = closes.length := by
  cases closes with
  | nil => rfl
  | cons c t => simp [gainsOf, List.length_zipWith]

theorem lossesOf_length (closes : List ℚ) : (lossesOf closes).length = closes.length := by
  cases closes with
  | nil => rfl
  | cons c t => simp [lossesOf, List.length_zipWith]

theorem mem_zipWith_exists {α β γ : Type} {f : α → β → γ} :
    ∀ {as : List α} {bs : List β} {c : γ},
      c ∈ List.zipWith f as bs → ∃ a b, a ∈ as ∧ b ∈ bs ∧ c = f a b := by
  intro as
  induction as with
  | nil => intro bs c h; simp at h
  | cons a t ih =>
    intro bs c h
    cases bs with
    | nil => simp at h
    | cons b u =>
      rcases List.mem_cons.mp h with rfl | h'
      · exact ⟨a, b, by simp, by simp, rfl⟩
      · obtain ⟨x, y, hx, hy, rfl⟩ := ih h'
        exact ⟨x, y, by simp [hx], by simp [hy], rfl⟩

theorem gainsOf_nonneg (closes : List ℚ) : ∀ x ∈ gainsOf closes, 0 ≤ x := by
  cases closes with
  | nil => simp [gainsOf]
  | cons c t =>
    intro x hx
    rcases List.mem_cons.mp hx with rfl | hx'
    · exact le_refl 0
    · obtain ⟨a, b, -, -, rfl⟩ := mem_zipWith_exists hx'
      exact le_max_right _ _

theorem lossesOf_nonneg (closes : List ℚ) : ∀ x ∈ lossesOf closes, 0 ≤ x := by
  cases closes with
  | nil => simp [lossesOf]
  | cons c t =>
    intro x hx
    rcases List.mem_cons.mp hx with rfl | hx'
    · exact le_refl 0
    · obtain ⟨a, b, -, -, rfl⟩ := mem_zipWith_exists hx'
      exact le_max_right _ _

theorem zipWith_get?_eq {α β γ : Type} (f : α → β → γ) :
    ∀ (as : List α) (bs : List β) (i : ℕ),
      (List.zipWith f as bs).get? i =
        match as.get? i, bs.get? i with
        | some a, some b => some (f a b)
        | _, _ => none := by
  intro as
  induction as with
  | nil => intro bs i; cases bs <;> cases i <;> rfl
  | cons a t ih =>
    intro bs i
    cases bs with
    | nil => cases h : (a :: t).get? i <;> simp [h]
    | cons b u =>
      cases i with
      | zero => rfl
      | succ j => simpa using ih u j

theorem getDefaultPrediction_length (horizon : ℕ) (reason : String) (closes : List ℚ) :
    (getDefaultPrediction horizon reason closes).forecastNextDays.length = horizon := by
  unfold getDefaultPrediction
  dsimp only
  rw [List.length_map, List.length_range]

theorem getSimplePrediction_length (closes : List ℚ) (horizon : ℕ) (reason : String) :
    (getSimplePrediction closes horizon reason).forecastNextDays.length = horizon := by
  unfold getSimplePrediction
  split
  · exact getDefaultPrediction_length _ _ _
  · dsimp only
    repeat' split
    all_goals simp only [List.length_map, List.length_range]

theorem prepareX_length (f : IndicatorFrame) :
    (prepareX f).length = f.closes.length - 1 := by
  simp [prepareX]

theorem tryBody_ok_length {fit : List FeatRow → List ℚ → Except Unit LinModel}
    {f : IndicatorFrame} {horizon : ℕ} {p : Prediction}
    (h : tryBody fit f horizon = .ok p) :
    p.forecastNextDays.length = horizon := by
  unfold tryBody at h
  split at h
  · simp only [Except.ok.injEq] at h
    exact h ▸ getSimplePrediction_length _ _ _
  · cases hf : fit (prepareX f) (prepareY f) with
    | error e => rw [hf] at h; exact absurd h (by simp)
    | ok m =>
      rw [hf] at h
      dsimp only at h
      cases hl : (generateForecast m f horizon).getLast? with
      | none => rw [hl] at h; exact absurd h (by simp)
      | some v =>
        rw [hl] at h
        dsimp only at h
        cases hs : generateTradingSignal f
            (determineTrend (f.closes.getLast?.getD 0) v) with
        | error e => rw [hs] at h; exact absurd h (by simp)
        | ok sr =>
          rw [hs] at h
          simp only [Except.ok.injEq] at h
          subst h
          simp [generateForecast]

theorem forecastPriceRegression_length
    (fit : List FeatRow → List ℚ → Except Unit LinModel)
    (f : IndicatorFrame) (horizon : ℕ) :
    (forecastPriceRegression fit f horizon).forecastNextDays.length = horizon := by
  unfold forecastPriceRegression
  split
  · exact getDefaultPrediction_length _ _ _
  · cases h : tryBody fit f horizon with
    | ok p => exact tryBody_ok_length h
    | error e => exact getSimplePrediction_length _ _ _

theorem rsiNeutralPoint_true_iff (v : PyVal) :
    rsiNeutralPoint v = true ↔ ∃ q : ℚ, v = PyVal.num q ∧ 30 ≤ q ∧ q ≤ 70 := by
  cases v <;> simp [rsiNeutralPoint]

theorem score_shape (p1 p2 p3 p4 : Prop)
    [Decidable p1] [Decidable p2] [Decidable p3] [Decidable p4] :
    1/2 ≤ min 1 (max 0 ((1:ℚ)/2 + (if p1 then 1/10 else 0)
        + (if p2 then 1/5 else 0) + (if p3 then 1/10 else 0)
        + (if p4 then 1/10 else 0))) ∧
      min 1 (max 0 ((1:ℚ)/2 + (if p1 then 1/10 else 0)
        + (if p2 then 1/5 else 0) + (if p3 then 1/10 else 0)
        + (if p4 then 1/10 else 0))) ≤ 1 ∧
      (min 1 (max 0 ((1:ℚ)/2 + (if p1 then 1/10 else 0)
        + (if p2 then 1/5 else 0) + (if p3 then 1/10 else 0)
        + (if p4 then 1/10 else 0))) = 1 ↔ p1 ∧ p2 ∧ p3 ∧ p4) := by
  by_cases h1 : p1 <;> by_cases h2 : p2 <;> by_cases h3 : p3 <;> by_cases h4 : p4 <;>
    simp [h1, h2, h3, h4] <;> norm_num [min_def, max_def]

-- ## Claim theorems

/-- Claim C10: for every result record, `get_ai_confidence_score` lies in
`[0.5, 1.0]`; the lower clamp at `0` is unreachable because the base
`0.5` is only ever incremented, and the maximum `1.0` is attained exactly
when all four increment conditions hold simultaneously. -/
theorem confidenceScoreRange (ind : LatestIndicators) (trend : Trend)
    (signal : Signal) :
    1/2 ≤ getAiConfidenceScore ind trend signal ∧
    getAiConfidenceScore ind trend signal ≤ 1 ∧
    (getAiConfidenceScore ind trend signal = 1 ↔
      ((∃ q : ℚ, ind.rsi.getD (PyVal.num 50) = PyVal.num q ∧ 30 ≤ q ∧ q ≤ 70) ∧
       ((ind.sma30.getD 0 < ind.sma7.getD 0 ∧ trend = .uptrend) ∨
         (ind.sma7.getD 0 < ind.sma30.getD 0 ∧ trend = .downtrend)) ∧
       (signal = .buy ∨ signal = .sell) ∧
       (trend = .uptrend ∨ trend = .downtrend))) := by
  unfold getAiConfidenceScore
  dsimp only
  have h := score_shape (rsiNeutralPoint (ind.rsi.getD (PyVal.num 50)) = true)
    ((ind.sma30.getD 0 < ind.sma7.getD 0 ∧ trend = .uptrend) ∨
      (ind.sma7.getD 0 < ind.sma30.getD 0 ∧ trend = .downtrend))
    (signal = .buy ∨ signal = .sell)
    (trend = .uptrend ∨ trend = .downtrend)
  exact ⟨h.1, h.2.1, h.2.2.trans (and_congr_left' (rsiNeutralPoint_true_iff _))⟩

/-- Claim C5: for every price series with fewer than `period + 1 = 15`
points (default period `14`), the RSI column holds the Python object
`None` everywhere (not a numeric placeholder), the short-data warning is
emitted, and `get_latest_indicators` omits the `RSI14` key. -/
theorem shortSeriesRsiOmitted (closes : List ℚ) (h : closes.length < 15) :
    (mkFrame closes).rsi = List.replicate closes.length PyVal.none ∧
    rsiShortWarning 14 closes = true ∧
    (getLatestIndicators (mkFrame closes)).rsi = Option.none := by
  have hcol : (mkFrame closes).rsi = List.replicate closes.length PyVal.none := by
    simp only [mkFrame, rsiColumn, if_pos (by omega : closes.length < 14 + 1)]
  refine ⟨hcol, ?_, ?_⟩
  · simp only [rsiShortWarning]
    exact decide_eq_true (by omega)
  · by_cases he : closes.isEmpty = true
    · simp [getLatestIndicators, mkFrame, he]
    · have hn0 : closes.length ≠ 0 := by
        simpa [List.isEmpty_iff, List.length_eq_zero] using he
      simp only [getLatestIndicators, mkFrame, he, if_false]
      rw [show (rsiColumn 14 closes) = List.replicate closes.length PyVal.none by
        simpa [mkFrame] using hcol]
      rw [List.getLast?_replicate]
      simp [hn0]

/-- Witness for C5 at the concrete three-point series `[1, 2, 3]`. -/
theorem shortSeriesRsiOmitted_witness :
    (mkFrame [1, 2, 3]).rsi = List.replicate ([1, 2, 3] : List ℚ).length PyVal.none ∧
    rsiShortWarning 14 [1, 2, 3] = true ∧
    (getLatestIndicators (mkFrame [1, 2, 3])).rsi = Option.none :=
  shortSeriesRsiOmitted [1, 2, 3] (by norm_num)

/-- Claim C7: for every non-empty price series, `add_moving_averages`
produces an SMA entry for every record, equal to the mean of the trailing
window of the `min (i+1) w` available closes (an expanding window over
the first `w-1` records); a series of length exactly `1` passes
`add_indicators` without error, with SMA equal to that single close. -/
theorem smaExpandingWindow :
    (∀ (closes : List ℚ) (w i : ℕ), 1 ≤ w → i < closes.length →
      ((closes.take (i + 1)).drop (i + 1 - w)).length = min (i + 1) w ∧
      (rollingMean w closes).get? i =
        some (((closes.take (i + 1)).drop (i + 1 - w)).sum /
          ((min (i + 1) w : ℕ) : ℚ))) ∧
    (∀ c : ℚ, addIndicators [c] = .ok ⟨[c], [c], [c], [PyVal.none]⟩) := by
  constructor
  · intro closes w i hw hi
    have hlen : ((closes.take (i + 1)).drop (i + 1 - w)).length = min (i + 1) w := by
      rw [List.length_drop, List.length_take]
      omega
    refine ⟨hlen, ?_⟩
    unfold rollingMean
    rw [List.get?_map, List.get?_range hi, Option.map_some']
    dsimp only
    rw [hlen]
  · intro c
    simp only [addIndicators, mkFrame, rollingMean, rsiColumn, List.length_cons,
      List.length_nil, List.isEmpty_cons, if_neg, Bool.false_eq_true,
      not_false_eq_true, List.range_succ, List.range_zero, List.map_cons,
      List.map_nil, List.nil_append, List.take, List.drop]
    norm_num

/-- Witness for C7 at the concrete series `[10, 20]`, window `7`,
index `1` (expanding window: mean of the two available closes). -/
theorem smaExpandingWindow_witness :
    ((([10, 20] : List ℚ).take (1 + 1)).drop (1 + 1 - 7)).length = min (1 + 1) 7 ∧
    (rollingMean 7 [10, 20]).get? 1 =
      some (((([10, 20] : List ℚ).take (1 + 1)).drop (1 + 1 - 7)).sum /
        ((min (1 + 1) 7 : ℕ) : ℚ)) :=
  smaExpandingWindow.1 [10, 20] 7 1 (by norm_num) (by norm_num)

/-- Claim C8: for a fixed price series and horizon the pipeline is
deterministic: the wall-clock timestamp and the random template draws
(the only varying inputs between two invocations) do not influence
`trend`, `signal`, `forecast_next_days` or `forecast_bounds`. -/
theorem pipelineDeterministic (fit : List FeatRow → List ℚ → Except Unit LinModel)
    (sqrtQ : ℚ → ℚ) (symbol : String) (closes : List ℚ) (horizon : ℕ)
    (t1 t2 : String) (a1 a2 b1 b2 : ℕ) :
    coreFields (analyze fit sqrtQ symbol closes horizon t1 a1 a2) =
    coreFields (analyze fit sqrtQ symbol closes horizon t2 b1 b2) := by
  unfold coreFields analyze getForecast
  cases h : addIndicators closes <;> simp [h, Except.map]

/-- Claim C6: any exception inside the `try` block of
`forecast_price_regression` (data preparation, model fit, forecast or
signal generation) is caught and degraded to the naive fallback result;
no exception propagates (the embedded function is total by type). -/
theorem fitErrorsDegradeToFallback
    (fit : List FeatRow → List ℚ → Except Unit LinModel)
    (closes : List ℚ) (horizon : ℕ) (h10 : 10 ≤ closes.length)
    (herr : tryBody fit (mkFrame closes) horizon = .error ()) :
    forecastPriceRegression fit (mkFrame closes) horizon =
      getSimplePrediction closes horizon "Loi du doan" := by
  unfold forecastPriceRegression
  rw [if_neg (by simp only [mkFrame]; omega), herr]
  rfl

/-- Witness for C6: a 15-point flat series with a fit routine that
raises; the result is exactly the naive fallback. -/
theorem fitErrorsDegradeToFallback_witness :
    forecastPriceRegression (fun _ _ => .error ())
        (mkFrame (List.replicate 15 (100:ℚ))) 5 =
      getSimplePrediction (List.replicate 15 (100:ℚ)) 5 "Loi du doan" :=
  fitErrorsDegradeToFallback (fun _ _ => .error ()) (List.replicate 15 (100:ℚ)) 5
    (by norm_num)
    (by unfold tryBody
        rw [if_neg (by rw [prepareX_length]; simp [mkFrame])])

/-- Counterexample for C4: calling the forecast pipeline with horizon
`11`, outside `[1, 10]`, reports no input error: `get_forecast` computes
the indicators and returns a complete result with an 11-day forecast. -/
theorem horizonOutOfRangeAccepted :
    (getForecast (fun _ _ => .error ()) (fun q => q) "DEMO"
        (List.replicate 15 (100:ℚ)) 11 "t").map
      (fun r => (r.forecastHorizonDays, r.forecastNextDays.length)) =
    .ok (11, 11) := by
  unfold getForecast
  rw [show addIndicators (List.replicate 15 (100:ℚ)) =
      .ok (mkFrame (List.replicate 15 100)) from by simp [addIndicators]]
  simp [Except.map, List.length_map, forecastPriceRegression_length]

/-- Claim C4 (amended): the service layer performs no horizon validation:
for every non-empty series and every horizon, including those outside
`[1, 10]`, `get_forecast` runs the indicator and forecast computation and
returns a result whose horizon field and forecast length equal the
requested horizon.  The only `[1, 10]` enforcement in the repository is
the UI number-input widget, outside the pipeline. -/
theorem horizonNeverRejected (fit : List FeatRow → List ℚ → Except Unit LinModel)
    (sqrtQ : ℚ → ℚ) (symbol : String) (closes : List ℚ) (horizon : ℕ)
    (now : String) (hne : closes ≠ []) :
    ∃ r, getForecast fit sqrtQ symbol closes horizon now = .ok r ∧
      r.forecastHorizonDays = horizon ∧
      r.forecastNextDays.length = horizon := by
  unfold getForecast
  rw [show addIndicators closes = .ok (mkFrame closes) from by
    simp [addIndicators, hne]]
  exact ⟨_, rfl, rfl, by simp [List.length_map, forecastPriceRegression_length]⟩

/-- Witness for C4 (amended) at a concrete three-point series and the
out-of-range horizon `12`. -/
theorem horizonNeverRejected_witness :
    ∃ r, getForecast (fun _ _ => Except.error ()) (fun q => q) "DEMO"
        ([5, 6, 7] : List ℚ) 12 "t" = .ok r ∧
      r.forecastHorizonDays = 12 ∧
      r.forecastNextDays.length = 12 :=
  horizonNeverRejected (fun _ _ => Except.error ()) (fun q => q) "DEMO"
    [5, 6, 7] 12 "t" (by simp)

set_option maxRecDepth 8000 in
/-- Counterexample for C1: the simple fallback does not clamp forecasts
at zero.  On ten closes ending in a steep five-day drop (`100 → 1`),
`forecast_price_regression` with horizon `6` reaches the simple fallback
(the 10-point series has a `None` RSI column, so the signal stage raises
`TypeError` after a successful fit) and its sixth forecasted price is
`-0.19 < 0`. -/
theorem simpleFallbackNegativePrice :
    (forecastPriceRegression (fun _ _ => .ok ⟨0, 0, 0, 0, 0⟩)
        (mkFrame steepDrop10) 6).forecastNextDays.getD 5 0 = -(19/100) ∧
    -(19/100 : ℚ) < 0 := by
  have hsig : generateTradingSignal (mkFrame steepDrop10) .downtrend = .error () := by
    have hrsi : lastRsi (mkFrame steepDrop10) = PyVal.none := by
      norm_num [lastRsi, mkFrame, rsiColumn, steepDrop10, List.getLast?_replicate]
    simp [generateTradingSignal, hrsi, PyVal.gtQ]
  have hfc : generateForecast ⟨0, 0, 0, 0, 0⟩ (mkFrame steepDrop10) 6 =
      [0, 0, 0, 0, 0, 0] := by
    norm_num [generateForecast, LinModel.predictRow, List.range_succ]
  have herr : tryBody (fun _ _ => .ok ⟨0, 0, 0, 0, 0⟩) (mkFrame steepDrop10) 6 =
      .error () := by
    unfold tryBody
    rw [if_neg (by rw [prepareX_length]; norm_num [mkFrame, steepDrop10])]
    dsimp only
    rw [hfc]
    have hcur : (mkFrame steepDrop10).closes.getLast?.getD 0 = 1 := by
      norm_num [mkFrame, steepDrop10]
    have htrend : determineTrend 1 0 = .downtrend := by
      norm_num [determineTrend, isSidewaysTrend]
    rw [show ([0, 0, 0, 0, 0, 0] : List ℚ).getLast? = some 0 from rfl]
    dsimp only
    rw [hcur, htrend, hsig]
  have hfall : forecastPriceRegression (fun _ _ => .ok ⟨0, 0, 0, 0, 0⟩)
      (mkFrame steepDrop10) 6 =
      getSimplePrediction steepDrop10 6 "Loi du doan" := by
    unfold forecastPriceRegression
    rw [if_neg (by norm_num [mkFrame, steepDrop10]), herr]
    rfl
  refine ⟨?_, by norm_num⟩
  rw [hfall]
  have hval : (getSimplePrediction steepDrop10 6 "Loi du doan").forecastNextDays.getD 5 0 =
      round2 (1 * (1 + (-(99/500)) * 6)) := by
    norm_num [getSimplePrediction, steepDrop10, List.range_succ]
  rw [hval]
  norm_num [round2, Int.fract]

/-- Claim C1 (amended): on the fitted-regression path the forecast always
has length equal to the requested horizon and every price is clamped
non-negative; the default and simple fallback paths also return exactly
`horizon` prices, but the simple fallback performs no clamping (and can
return negative prices, see the counterexample). -/
theorem forecastLengthAndClamp
    (fit : List FeatRow → List ℚ → Except Unit LinModel)
    (closes : List ℚ) (horizon : ℕ) (p : Prediction)
    (h10 : 10 ≤ closes.length)
    (hok : tryBody fit (mkFrame closes) horizon = .ok p) :
    (p.forecastNextDays.length = horizon ∧ ∀ x ∈ p.forecastNextDays, 0 ≤ x) ∧
    (∀ (r : String) (cl : List ℚ),
      (getDefaultPrediction horizon r cl).forecastNextDays.length = horizon ∧
      (getSimplePrediction cl horizon r).forecastNextDays.length = horizon) := by
  refine ⟨?_, fun r cl =>
    ⟨getDefaultPrediction_length _ _ _, getSimplePrediction_length _ _ _⟩⟩
  unfold tryBody at hok
  rw [if_neg (by rw [prepareX_length]; simp only [mkFrame]; omega)] at hok
  cases hf : fit (prepareX (mkFrame closes)) (prepareY (mkFrame closes)) with
  | error e => rw [hf] at hok; exact absurd hok (by simp)
  | ok m =>
    rw [hf] at hok
    dsimp only at hok
    cases hl : (generateForecast m (mkFrame closes) horizon).getLast? with
    | none => rw [hl] at hok; exact absurd hok (by simp)
    | some v =>
      rw [hl] at hok
      dsimp only at hok
      cases hs : generateTradingSignal (mkFrame closes)
          (determineTrend ((mkFrame closes).closes.getLast?.getD 0) v) with
      | error e => rw [hs] at hok; exact absurd hok (by simp)
      | ok sr =>
        rw [hs] at hok
        simp only [Except.ok.injEq] at hok
        subst hok
        constructor
        · simp [generateForecast]
        · intro x hx
          rw [List.mem_map] at hx
          obtain ⟨y, hy, rfl⟩ := hx
          apply round2_nonneg
          unfold generateForecast at hy
          rw [List.mem_map] at hy
          obtain ⟨d, _, rfl⟩ := hy
          exact le_max_right _ _

/-- Witness for C1 (amended): a 15-point flat series with the zero
model; the fitted path returns five clamped forecasts `[0,0,0,0,0]`. -/
theorem forecastLengthAndClamp_witness :
    ((Prediction.mk .downtrend 5 [0, 0, 0, 0, 0] .hold
        "Xu huong giam nhung RSI da qua ban, co the phuc hoi").forecastNextDays.length = 5 ∧
      ∀ x ∈ (Prediction.mk .downtrend 5 [0, 0, 0, 0, 0] .hold
        "Xu huong giam nhung RSI da qua ban, co the phuc hoi").forecastNextDays, 0 ≤ x) ∧
    (∀ (r : String) (cl : List ℚ),
      (getDefaultPrediction 5 r cl).forecastNextDays.length = 5 ∧
      (getSimplePrediction cl 5 r).forecastNextDays.length = 5) :=
  forecastLengthAndClamp (fun _ _ => .ok ⟨0, 0, 0, 0, 0⟩)
    (List.replicate 15 (100:ℚ)) 5
    (Prediction.mk .downtrend 5 [0, 0, 0, 0, 0] .hold
      "Xu huong giam nhung RSI da qua ban, co the phuc hoi")
    (by norm_num)
    (by norm_num [tryBody, prepareX_length, mkFrame, generateForecast,
      LinModel.predictRow, List.range_succ, determineTrend, isSidewaysTrend,
      generateTradingSignal, lastRsi, lastSma7, lastSma30, PyVal.gtQ,
      rsiColumn, rsiSeries, rsiCombine, ewmList, ewmStep, gainsOf, lossesOf,
      rollingMean, round2, Int.fract, List.replicate])

set_option maxRecDepth 8000 in
/-- Counterexample for C2: `predictor._generate_trading_signal` uses the
strict comparison `SMA7 > SMA30` on the uptrend branch.  On the series
`smaTie15` the latest RSI is numeric and `< 70` and `SMA7 = SMA30` (so
`SMA7 >= SMA30` holds), yet the Uptrend signal is HOLD, not the BUY the
claim's `>=` rule demands. -/
theorem uptrendSignalEqSma :
    (lastRsi (mkFrame smaTie15)).ltQ 70 = .ok true ∧
    lastSma30 (mkFrame smaTie15) ≤ lastSma7 (mkFrame smaTie15) ∧
    generateTradingSignal (mkFrame smaTie15) .uptrend =
      .ok (.hold, "Xu huong tang nhung can cho SMA7 vuot SMA30") := by
  have hrsi : lastRsi (mkFrame smaTie15) = PyVal.num (4875/98) := by
    norm_num [lastRsi, mkFrame, rsiColumn, rsiSeries, rsiCombine, ewmList,
      ewmStep, gainsOf, lossesOf, smaTie15, List.scanl, List.zipWith,
      List.getLast?]
  have hs7 : lastSma7 (mkFrame smaTie15) = 4 := by
    norm_num [lastSma7, mkFrame, rollingMean, smaTie15, List.range_succ,
      List.getLast?]
  have hs30 : lastSma30 (mkFrame smaTie15) = 4 := by
    norm_num [lastSma30, mkFrame, rollingMean, smaTie15, List.range_succ,
      List.getLast?]
  refine ⟨?_, ?_, ?_⟩
  · rw [hrsi]; norm_num [PyVal.ltQ]
  · rw [hs7, hs30]
  · unfold generateTradingSignal
    rw [hrsi, hs7, hs30]
    norm_num [PyVal.ltQ]

/-- Claim C2 (amended): under an Uptrend classification,
`predictor._generate_trading_signal` (used on the linear pipeline path)
returns BUY iff the latest RSI is a number `< 70` and strictly
`SMA7 > SMA30`, and HOLD in every other case that returns at all, while
`forecast_service._derive_trend_and_signal` (the chronos-path
derivation) returns BUY iff RSI (defaulted to 50 when undefined) `< 70`
and `SMA7 >= SMA30`, else HOLD.  The claim's `>=` rule matches only the
service derivation; the predictor requires strict `>`. -/
theorem uptrendSignalRules (f : IndicatorFrame) (sig : Signal) (r : String)
    (h : generateTradingSignal f .uptrend = .ok (sig, r)) :
    ((sig = .buy ↔
        ((∃ q : ℚ, lastRsi f = PyVal.num q ∧ q < 70) ∧
          lastSma30 f < lastSma7 f)) ∧
      (sig = .buy ∨ sig = .hold)) ∧
    (∀ (cur fore : ℚ) (rsi : PyVal) (s7 s30 : ℚ),
      (deriveTrendAndSignal cur fore rsi s7 s30).1 = .uptrend →
      (((deriveTrendAndSignal cur fore rsi s7 s30).2.1 = .buy ↔
          (rsiFeat rsi < 70 ∧ s30 ≤ s7)) ∧
        ((deriveTrendAndSignal cur fore rsi s7 s30).2.1 = .buy ∨
          (deriveTrendAndSignal cur fore rsi s7 s30).2.1 = .hold))) := by
  constructor
  · unfold generateTradingSignal at h
    rcases hv : lastRsi f with _ | _ | q
    · rw [hv] at h
      simp [PyVal.ltQ] at h
    · rw [hv] at h
      simp only [PyVal.ltQ, Bool.false_eq_true, if_false,
        Except.ok.injEq, Prod.mk.injEq] at h
      obtain ⟨h1, -⟩ := h
      subst h1
      simp [hv]
    · rw [hv] at h
      simp only [PyVal.ltQ, decide_eq_true_eq] at h
      by_cases h70 : q < 70
      · rw [if_pos h70] at h
        by_cases hss : lastSma30 f < lastSma7 f
        · rw [if_pos hss] at h
          simp only [Except.ok.injEq, Prod.mk.injEq] at h
          obtain ⟨h1, -⟩ := h
          subst h1
          simp [hv, h70, hss]
        · rw [if_neg hss] at h
          simp only [Except.ok.injEq, Prod.mk.injEq] at h
          obtain ⟨h1, -⟩ := h
          subst h1
          simp [hv, h70, hss]
      · rw [if_neg h70] at h
        simp only [Except.ok.injEq, Prod.mk.injEq] at h
        obtain ⟨h1, -⟩ := h
        subst h1
        simp [hv, h70]
  · intro cur fore rsi s7 s30 htr
    unfold deriveTrendAndSignal at htr ⊢
    dsimp only at htr ⊢
    cases hC : (if isSidewaysTrend cur fore (1/50) = true then Trend.sideways
        else if cur < fore then Trend.uptrend else Trend.downtrend) with
    | sideways =>
        rw [hC] at htr
        dsimp only at htr
        simp only [apply_ite Prod.fst, ite_self] at htr
        simp at htr
    | uptrend =>
        by_cases hcc : rsiFeat rsi < 70 ∧ s30 ≤ s7 <;> simp [hcc]
    | downtrend =>
        rw [hC] at htr
        dsimp only at htr
        simp only [apply_ite Prod.fst, ite_self] at htr
        simp at htr

/-- Witness for C2 (amended): a frame with numeric RSI 50 and
`SMA7 = 100 > SMA30 = 90` under Uptrend yields BUY. -/
theorem uptrendSignalRules_witness :
    ((Signal.buy = .buy ↔
        ((∃ q : ℚ,
            lastRsi (IndicatorFrame.mk [100] [100] [90] [PyVal.num 50]) =
              PyVal.num q ∧ q < 70) ∧
          lastSma30 (IndicatorFrame.mk [100] [100] [90] [PyVal.num 50]) <
            lastSma7 (IndicatorFrame.mk [100] [100] [90] [PyVal.num 50]))) ∧
      (Signal.buy = .buy ∨ Signal.buy = .hold)) ∧
    (∀ (cur fore : ℚ) (rsi : PyVal) (s7 s30 : ℚ),
      (deriveTrendAndSignal cur fore rsi s7 s30).1 = .uptrend →
      (((deriveTrendAndSignal cur fore rsi s7 s30).2.1 = .buy ↔
          (rsiFeat rsi < 70 ∧ s30 ≤ s7)) ∧
        ((deriveTrendAndSignal cur fore rsi s7 s30).2.1 = .buy ∨
          (deriveTrendAndSignal cur fore rsi s7 s30).2.1 = .hold))) :=
  uptrendSignalRules (IndicatorFrame.mk [100] [100] [90] [PyVal.num 50])
    .buy "Xu huong tang, RSI chua qua mua, SMA7 > SMA30"
    (by norm_num [generateTradingSignal, lastRsi, lastSma7, lastSma30,
      PyVal.ltQ, List.getLast?])

/-- Claim C3: for every price series long enough for RSI to be computed
(`length >= period + 1`, with a positive period), every defined
(non-`nan`) RSI value lies in `[0, 100]`; and whenever the EWM average
loss is zero while the average gain is positive (e.g. a strictly
increasing close series), the RSI saturates at exactly `100` (the
`+inf` relative strength) instead of raising a division error. -/
theorem rsiWithinBoundsAndSaturates (period : ℕ) (closes : List ℚ)
    (hp : 1 ≤ period) (hlen : period + 1 ≤ closes.length) :
    (∀ v ∈ rsiColumn period closes, ∀ q : ℚ, v = PyVal.num q →
      0 ≤ q ∧ q ≤ 100) ∧
    (∀ i : ℕ, (ewmList period (lossesOf closes)).get? i = some 0 →
      0 < ((ewmList period (gainsOf closes)).get? i).getD 0 →
      (rsiColumn period closes).get? i = some (PyVal.num 100)) := by
  have hcolEq : rsiColumn period closes =
      (rsiSeries period closes).map (fun v => match v with
        | some q => PyVal.num q | Option.none => PyVal.nan) := by
    unfold rsiColumn
    rw [if_neg (by omega)]
  constructor
  · intro v hv q hq
    rw [hcolEq, List.mem_map] at hv
    obtain ⟨o, ho, rfl⟩ := hv
    unfold rsiSeries at ho
    obtain ⟨g, l, hgmem, hlmem, rfl⟩ := mem_zipWith_exists ho
    have hg : 0 ≤ g := ewmList_nonneg hp _ (gainsOf_nonneg closes) g hgmem
    have hl : 0 ≤ l := ewmList_nonneg hp _ (lossesOf_nonneg closes) l hlmem
    unfold rsiCombine at hq
    by_cases hl0 : 0 < l
    · rw [if_pos hl0] at hq
      simp only [PyVal.num.injEq] at hq
      subst hq
      have hgl : 0 ≤ g / l := div_nonneg hg hl0.le
      have hd : 0 < 100 / (1 + g / l) := div_pos (by norm_num) (by linarith)
      have hds : 100 / (1 + g / l) ≤ 100 :=
        div_le_self (by norm_num) (by linarith)
      constructor <;> linarith
    · rw [if_neg hl0] at hq
      by_cases hg0 : 0 < g
      · rw [if_pos hg0] at hq
        simp only [PyVal.num.injEq] at hq
        subst hq
        norm_num
      · rw [if_neg hg0] at hq
        simp at hq
  · intro i hli hgi
    have hiLt : i < (ewmList period (lossesOf closes)).length := by
      by_contra hcon
      rw [List.get?_eq_none.mpr (le_of_not_lt hcon)] at hli
      exact absurd hli (by simp)
    have hiLtG : i < (ewmList period (gainsOf closes)).length := by
      rwa [ewmList_length, gainsOf_length, ← lossesOf_length closes,
        ← ewmList_length period]
    have hgEq := List.get?_eq_get hiLtG
    rw [hgEq] at hgi
    simp only [Option.getD_some] at hgi
    rw [hcolEq, List.get?_map]
    unfold rsiSeries
    rw [zipWith_get?_eq, hgEq, hli]
    dsimp only
    unfold rsiCombine
    rw [if_neg (by norm_num), if_pos hgi]
    rfl

/-- Witness for C3 at the strictly increasing 15-point series
`upClose15`: the EWM loss at the last index is `0`, the EWM gain is
positive, and the RSI there is exactly `100`. -/
theorem rsiWithinBoundsAndSaturates_witness :
    (rsiColumn 14 upClose15).get? 14 = some (PyVal.num 100) :=
  (rsiWithinBoundsAndSaturates 14 upClose15 (by norm_num)
      (by norm_num [upClose15])).2 14
    (by norm_num [ewmList, lossesOf, ewmStep, List.scanl, List.zipWith,
      upClose15, List.get?])
    (by norm_num [ewmList, gainsOf, ewmStep, List.scanl, List.zipWith,
      upClose15, List.get?])

theorem getD_replicate {α : Type} (a d : α) :
    ∀ (n i : ℕ), i < n → (List.replicate n a).getD i d = a := by
  intro n
  induction n with
  | zero => intro i h; omega
  | succ n ih =>
    intro i h
    cases i with
    | zero => simp [List.replicate_succ]
    | succ j =>
      rw [List.replicate_succ]
      simpa using ih j (by omega)

theorem zipWith_replicate_both {α : Type} (g : ℚ → ℚ → α) (a b : ℚ) :
    ∀ n, List.zipWith g (List.replicate n a) (List.replicate n b) =
      List.replicate n (g a b) := by
  intro n
  induction n with
  | zero => rfl
  | succ n ih => simp [List.replicate_succ, ih]

theorem zipWith_cons_replicate (f : ℚ → ℚ → ℚ) (c : ℚ) (h : f c c = 0) :
    ∀ n, List.zipWith f (c :: List.replicate n c) (List.replicate n c) =
      List.replicate n 0 := by
  intro n
  induction n with
  | zero => rfl
  | succ n ih =>
    rw [List.replicate_succ]
    calc List.zipWith f (c :: c :: List.replicate n c) (c :: List.replicate n c)
        = f c c :: List.zipWith f (c :: List.replicate n c) (List.replicate n c) :=
          rfl
      _ = 0 :: List.replicate n 0 := by rw [h, ih]
      _ = List.replicate (n + 1) 0 := (List.replicate_succ 0 n).symm

theorem gainsOf_replicate (c : ℚ) :
    ∀ n, gainsOf (List.replicate n c) = List.replicate n 0 := by
  intro n
  cases n with
  | zero => rfl
  | succ n =>
    rw [List.replicate_succ]
    unfold gainsOf
    rw [show (c :: List.replicate n c).tail = List.replicate n c from rfl]
    rw [zipWith_cons_replicate _ c (by simp) n]
    exact (List.replicate_succ 0 n).symm

theorem lossesOf_replicate (c : ℚ) :
    ∀ n, lossesOf (List.replicate n c) = List.replicate n 0 := by
  intro n
  cases n with
  | zero => rfl
  | succ n =>
    rw [List.replicate_succ]
    unfold lossesOf
    rw [show (c :: List.replicate n c).tail = List.replicate n c from rfl]
    rw [zipWith_cons_replicate _ c (by simp) n]
    exact (List.replicate_succ 0 n).symm

theorem scanl_zero_replicate (f : ℚ → ℚ → ℚ) (h : f 0 0 = 0) :
    ∀ n, List.scanl f 0 (List.replicate n 0) = List.replicate (n + 1) 0 := by
  intro n
  induction n with
  | zero => rfl
  | succ n ih =>
    rw [List.replicate_succ, List.scanl_cons, h, ih]
    rfl

theorem ewmList_replicate_zero (span : ℕ) :
    ∀ n, ewmList span (List.replicate n 0) = List.replicate n 0 := by
  intro n
  cases n with
  | zero => rfl
  | succ n =>
    rw [List.replicate_succ]
    show List.scanl (ewmStep (2 / ((span : ℚ) + 1))) 0 (List.replicate n 0) =
      (0 : ℚ) :: List.replicate n 0
    rw [scanl_zero_replicate _ (by simp [ewmStep]) n, List.replicate_succ]

theorem rollingMean_replicate (w n : ℕ) (c : ℚ) (hw : 1 ≤ w) :
    rollingMean w (List.replicate n c) = List.replicate n c := by
  unfold rollingMean
  rw [List.length_replicate, List.eq_replicate]
  refine ⟨by rw [List.length_map, List.length_range], ?_⟩
  intro b hb
  rw [List.mem_map] at hb
  obtain ⟨i, hi, rfl⟩ := hb
  rw [List.mem_range] at hi
  dsimp only
  rw [List.take_replicate, List.drop_replicate]
  have hm : ((min (i + 1) n - (i + 1 - w) : ℕ) : ℚ) ≠ 0 := by
    rw [Nat.cast_ne_zero]
    omega
  rw [List.sum_replicate, List.length_replicate, nsmul_eq_mul]
  exact mul_div_cancel_left₀ c hm

theorem flat40_sma7 : (mkFrame flat40).sma7 = List.replicate 40 100 := by
  show rollingMean 7 (List.replicate 40 100) = List.replicate 40 100
  exact rollingMean_replicate 7 40 100 (by norm_num)

theorem flat40_sma30 : (mkFrame flat40).sma30 = List.replicate 40 100 := by
  show rollingMean 30 (List.replicate 40 100) = List.replicate 40 100
  exact rollingMean_replicate 30 40 100 (by norm_num)

theorem flat40_rsi : (mkFrame flat40).rsi = List.replicate 40 PyVal.nan := by
  show rsiColumn 14 flat40 = List.replicate 40 PyVal.nan
  unfold rsiColumn
  rw [if_neg (by norm_num [flat40])]
  unfold rsiSeries flat40
  rw [gainsOf_replicate, lossesOf_replicate, ewmList_replicate_zero,
    zipWith_replicate_both, List.map_replicate]
  rw [show rsiCombine 0 0 = Option.none from by norm_num [rsiCombine]]

theorem flat40_closes_length : (mkFrame flat40).closes.length = 40 := by
  show flat40.length = 40
  rw [show flat40 = List.replicate 40 100 from rfl, List.length_replicate]

theorem flat40_prepareX : prepareX (mkFrame flat40) =
    (List.range 39).map (fun k : ℕ => FeatRow.mk ((k : ℚ) + 1) 100 100 50) := by
  unfold prepareX
  rw [flat40_closes_length]
  apply List.map_congr_left
  intro k hk
  rw [List.mem_range] at hk
  dsimp only
  rw [flat40_sma7, flat40_sma30, flat40_rsi]
  rw [getD_replicate (100:ℚ) 0 40 (k + 1 - 1) (by omega),
    getD_replicate PyVal.nan PyVal.nan 40 (k + 1 - 1) (by omega)]
  norm_num [rsiFeat]

theorem flat40_prepareY : prepareY (mkFrame flat40) = List.replicate 39 100 := by
  unfold prepareY
  rw [flat40_closes_length]
  rw [show List.replicate 39 (100:ℚ) = (List.range 39).map (fun _ => (100:ℚ)) from by
    rw [List.map_const', List.length_range]]
  apply List.map_congr_left
  intro k hk
  rw [List.mem_range] at hk
  show (mkFrame flat40).closes.getD (k + 1) 0 = 100
  show (List.replicate 40 (100:ℚ)).getD (k + 1) 0 = 100
  exact getD_replicate _ _ 40 (k + 1) (by omega)

theorem flat40_residuals (m : LinModel) :
    List.zipWith (fun x t => m.predictRow x - t) (prepareX (mkFrame flat40))
      (prepareY (mkFrame flat40)) =
    (List.range 39).map
      (fun k : ℕ => m.predictRow (FeatRow.mk ((k : ℚ) + 1) 100 100 50) - 100) := by
  rw [flat40_prepareX, flat40_prepareY]
  rw [show List.replicate 39 (100:ℚ) = (List.range 39).map (fun _ => (100:ℚ)) from by
    rw [List.map_const', List.length_range]]
  rw [List.zipWith_map, List.zipWith_same]

theorem lossFn_flat40_perfect :
    lossFn (prepareX (mkFrame flat40)) (prepareY (mkFrame flat40))
      (LinModel.mk 100 0 0 0 0) = 0 := by
  unfold lossFn
  rw [flat40_residuals]
  rw [show (List.range 39).map
      (fun k : ℕ => (LinModel.mk 100 0 0 0 0).predictRow
        (FeatRow.mk ((k : ℚ) + 1) 100 100 50) - 100) =
      (List.range 39).map (fun _ => (0:ℚ)) from
    List.map_congr_left (fun k _ => by norm_num [LinModel.predictRow])]
  rw [List.map_const', List.length_range, List.map_replicate,
    List.sum_replicate]
  norm_num

/-- Counterexample for C9: on 40 flat closes at `100.0` the RSI is the
float `nan` (EWM gains and losses are both zero, so `RS = 0/0`): the
latest technical indicators carry no numeric RSI value at all — in
particular no value near 50. -/
theorem flatSeriesRsiNaN :
    (getLatestIndicators (mkFrame flat40)).rsi = some PyVal.nan := by
  unfold getLatestIndicators
  rw [if_neg (by
    rw [show (mkFrame flat40).closes = List.replicate 40 (100:ℚ) from rfl]
    simp)]
  dsimp only
  rw [flat40_rsi, List.getLast?_replicate]
  norm_num [roundPyVal]

/-- Claim C9 (amended): for a series of 40 flat prices at `100.0` the
pipeline yields `SMA7 = SMA30 = 100.0`, trend Sideways and signal HOLD
as claimed, but the RSI is undefined (`nan`), not a value near 50: for
every least-squares fit of the regression data the whole 5-day forecast
is the constant `100`. -/
theorem flatSeriesAnalysis (fit : List FeatRow → List ℚ → Except Unit LinModel)
    (m : LinModel)
    (hfit : fit (prepareX (mkFrame flat40)) (prepareY (mkFrame flat40)) = .ok m)
    (hls : IsLSFit (prepareX (mkFrame flat40)) (prepareY (mkFrame flat40)) m) :
    forecastPriceRegression fit (mkFrame flat40) 5 =
      Prediction.mk .sideways 5 [100, 100, 100, 100, 100] .hold
        "Thi truong sideways, RSI trung tinh, cho tin hieu ro rang" ∧
    (getLatestIndicators (mkFrame flat40)).sma7 = some 100 ∧
    (getLatestIndicators (mkFrame flat40)).sma30 = some 100 ∧
    (getLatestIndicators (mkFrame flat40)).rsi = some PyVal.nan := by
  have h0 : lossFn (prepareX (mkFrame flat40)) (prepareY (mkFrame flat40)) m = 0 := by
    have h1 := hls (LinModel.mk 100 0 0 0 0)
    rw [lossFn_flat40_perfect] at h1
    exact le_antisymm h1 (lossFn_nonneg _ _ _)
  have hzero : ∀ r ∈ List.zipWith (fun x t => m.predictRow x - t)
      (prepareX (mkFrame flat40)) (prepareY (mkFrame flat40)), r = 0 :=
    sumOfSquares_eq_zero h0
  have hzero' : ∀ k : ℕ, k < 39 →
      m.predictRow (FeatRow.mk ((k : ℚ) + 1) 100 100 50) = 100 := by
    intro k hk
    have hz := hzero _ (by
      rw [flat40_residuals]
      exact List.mem_map.mpr ⟨k, List.mem_range.mpr hk, rfl⟩)
    linarith [hz]
  have e1 := hzero' 0 (by norm_num)
  have e2 := hzero' 1 (by norm_num)
  have hw : m.wIdx = 0 := by
    simp only [LinModel.predictRow] at e1 e2
    norm_num at e1 e2
    linarith
  have hAll : ∀ t : ℚ, m.predictRow (FeatRow.mk t 100 100 50) = 100 := by
    intro t
    simp only [LinModel.predictRow, hw] at e1 ⊢
    norm_num at e1 ⊢
    linarith
  have hlast7 : (mkFrame flat40).sma7.getLast?.getD 0 = 100 := by
    rw [flat40_sma7, List.getLast?_replicate]
    norm_num
  have hlast30 : (mkFrame flat40).sma30.getLast?.getD 0 = 100 := by
    rw [flat40_sma30, List.getLast?_replicate]
    norm_num
  have hlastR : (mkFrame flat40).rsi.getLast?.getD PyVal.nan = PyVal.nan := by
    rw [flat40_rsi, List.getLast?_replicate]
    norm_num
  have hcur : (mkFrame flat40).closes.getLast?.getD 0 = 100 := by
    rw [show (mkFrame flat40).closes = List.replicate 40 (100:ℚ) from rfl,
      List.getLast?_replicate]
    norm_num
  have hfc : generateForecast m (mkFrame flat40) 5 = List.replicate 5 100 := by
    unfold generateForecast
    rw [List.eq_replicate]
    refine ⟨by rw [List.length_map, List.length_range], ?_⟩
    intro b hb
    rw [List.mem_map] at hb
    obtain ⟨d, hd, rfl⟩ := hb
    dsimp only
    rw [hlast7, hlast30, hlastR, flat40_closes_length]
    rw [show rsiFeat PyVal.nan = 50 from rfl]
    rw [hAll (((40 + d : ℕ) : ℚ))]
    exact max_eq_left (by norm_num)
  have hrsiLast : lastRsi (mkFrame flat40) = PyVal.nan := by
    unfold lastRsi
    rw [flat40_rsi, List.getLast?_replicate]
    norm_num
  have hsig : generateTradingSignal (mkFrame flat40) .sideways =
      .ok (.hold, "Thi truong sideways, RSI trung tinh, cho tin hieu ro rang") := by
    unfold generateTradingSignal
    rw [hrsiLast]
    rfl
  have htrend : determineTrend 100 100 = .sideways := by
    norm_num [determineTrend, isSidewaysTrend]
  have htry : tryBody fit (mkFrame flat40) 5 =
      .ok (Prediction.mk .sideways 5 [100, 100, 100, 100, 100] .hold
        "Thi truong sideways, RSI trung tinh, cho tin hieu ro rang") := by
    unfold tryBody
    rw [if_neg (by rw [prepareX_length, flat40_closes_length]; norm_num), hfit]
    dsimp only
    rw [hfc]
    rw [show (List.replicate 5 (100:ℚ)).getLast? = some 100 from by
      rw [List.getLast?_replicate]; norm_num]
    dsimp only
    rw [hcur, htrend, hsig]
    dsimp only
    rw [List.map_replicate, show round2 (100:ℚ) = 100 from by norm_num [round2]]
    norm_num [List.replicate]
  have hne : ¬ (mkFrame flat40).closes.isEmpty = true := by
    rw [show (mkFrame flat40).closes = List.replicate 40 (100:ℚ) from rfl]
    simp
  refine ⟨?_, ?_, ?_, ?_⟩
  · unfold forecastPriceRegression
    rw [if_neg (by rw [flat40_closes_length]; norm_num), htry]
  · unfold getLatestIndicators
    rw [if_neg hne]
    dsimp only
    rw [flat40_sma7, List.getLast?_replicate]
    norm_num [round2]
  · unfold getLatestIndicators
    rw [if_neg hne]
    dsimp only
    rw [flat40_sma30, List.getLast?_replicate]
    norm_num [round2]
  · unfold getLatestIndicators
    rw [if_neg hne]
    dsimp only
    rw [flat40_rsi, List.getLast?_replicate]
    norm_num [roundPyVal]

/-- Witness for C9 (amended): the explicit perfect model
`(100, 0, 0, 0, 0)` is a least-squares fit of the flat training data. -/
theorem flatSeriesAnalysis_witness :
    forecastPriceRegression (fun _ _ => .ok (LinModel.mk 100 0 0 0 0))
        (mkFrame flat40) 5 =
      Prediction.mk .sideways 5 [100, 100, 100, 100, 100] .hold
        "Thi truong sideways, RSI trung tinh, cho tin hieu ro rang" ∧
    (getLatestIndicators (mkFrame flat40)).sma7 = some 100 ∧
    (getLatestIndicators (mkFrame flat40)).sma30 = some 100 ∧
    (getLatestIndicators (mkFrame flat40)).rsi = some PyVal.nan :=
  flatSeriesAnalysis (fun _ _ => .ok (LinModel.mk 100 0 0 0 0))
    (LinModel.mk 100 0 0 0 0) rfl
    (fun m' => by rw [lossFn_flat40_perfect]; exact lossFn_nonneg _ _ _)
